import Mathlib

/-!
Shallow embedding of the Ladder Scoring & Standings Engine of
`app.py` (referee-allocator): the points calculator
(`compute_points_breakdown_for_game` / `side_breakdown`), the game-result
store write path (`upsert_game_result` and the ladder tab's Save-result
handler), the audit aggregator (`ladder_audit_df_as_at`), the standings
builder (`ladder_table_df_as_at`) and the validator
(`ladder_validation_warnings_as_at`).

Modelling conventions:
* Python ints become `Int`; boolean 0/1 flags become `Bool`.
* The `game_results` table (one optional row per fixture id, unique key)
  becomes a function `Nat → Option GameResult`.
* `start_dt` timestamps are modelled at day granularity as `Int`; the
  audit window `start_dt >= midnight(season_start) ∧ start_dt <
  midnight(as_at+1)` becomes `season_start ≤ start_dt ∧ start_dt < as_at + 1`,
  and the validator's date comparison becomes the same-unit comparison.
* The pandas operations are modelled by their list semantics: row
  filters are `List.filter`, `groupby`+left `merge`+`fillna(0)` is a
  per-base-team aggregation that yields all-zero sums for absent teams,
  and `sort_values` is `List.mergeSort` with the lexicographic comparator
  induced by the key list.  The SQL `ORDER BY start_dt, team` on audit
  rows only permutes the audit list and is not modelled; no aggregate
  below depends on the audit row order.
-/

/-- LADDER_WIN_PTS from app.py. -/
def LADDER_WIN_PTS : Int := 3

/-- LADDER_DRAW_PTS from app.py. -/
def LADDER_DRAW_PTS : Int := 2

/-- LADDER_LOSS_PTS from app.py. -/
def LADDER_LOSS_PTS : Int := 0

/-- Match result marker: the `Res` values "W", "D", "L", "DEFAULT" used by
`side_breakdown` in app.py. -/
inductive MatchRes where
  | W
  | D
  | L
  | DEFAULT
deriving DecidableEq, Repr

/-- One side's points breakdown: the dict returned by `side_breakdown` in
app.py, with keys PF, PA, Res, Match, CloseBP, FemTries, FemBP, Conduct,
Unstrip, Pen, Points, Defaulted. -/
structure Breakdown where
  pf : Int
  pa : Int
  res : MatchRes
  match_pts : Int
  close_bp : Int
  fem_tries : Int
  fem_bp : Int
  conduct : Int
  unstrip : Int
  pen : Int
  points : Int
  defaulted : Bool
deriving DecidableEq, Repr

/-- The inner `side_breakdown` function of `compute_points_breakdown_for_game`
in app.py.  (The source also receives an `is_home` flag that it never uses;
it is omitted here.)  When the side is defaulted the result is "DEFAULT" and
match points, bonuses and the penalty are zeroed, but the raw `conduct`
input still enters the total unchanged. -/
def side_breakdown (pf pa female_tries conduct unstripped : Int)
    (defaulted : Bool) : Breakdown :=
  let is_defaulted := defaulted
  let res : MatchRes :=
    if is_defaulted then .DEFAULT
    else if pf > pa then .W
    else if pf = pa then .D
    else .L
  let match_pts : Int :=
    if is_defaulted then 0
    else if pf > pa then LADDER_WIN_PTS
    else if pf = pa then LADDER_DRAW_PTS
    else LADDER_LOSS_PTS
  let close_bp : Int :=
    if is_defaulted = false ∧ pf < pa ∧ (pa - pf = 1 ∨ pa - pf = 2) then 1 else 0
  let fem_bp : Int := if is_defaulted = false ∧ female_tries ≥ 4 then 1 else 0
  let pen : Int := if is_defaulted = false ∧ unstripped ≥ 3 then -2 else 0
  { pf := pf
    pa := pa
    res := res
    match_pts := match_pts
    close_bp := close_bp
    fem_tries := female_tries
    fem_bp := fem_bp
    conduct := conduct
    unstrip := unstripped
    pen := pen
    points := match_pts + close_bp + fem_bp + conduct + pen
    defaulted := is_defaulted }

/-- A row of the `game_results` table: the raw scoring inputs of one
fixture.  The 0/1 flags `home_defaulted`/`away_defaulted` are modelled as
`Bool`. -/
structure GameResult where
  home_score : Int
  away_score : Int
  home_female_tries : Int
  away_female_tries : Int
  home_conduct : Int
  away_conduct : Int
  home_unstripped : Int
  away_unstripped : Int
  home_defaulted : Bool
  away_defaulted : Bool
deriving DecidableEq, Repr

/-- `compute_points_breakdown_for_game` from app.py: calls `side_breakdown`
once per side with `pf`/`pa` swapped; returns (HOME, AWAY). -/
def compute_points_breakdown_for_game (r : GameResult) : Breakdown × Breakdown :=
  (side_breakdown r.home_score r.away_score r.home_female_tries
      r.home_conduct r.home_unstripped r.home_defaulted,
   side_breakdown r.away_score r.home_score r.away_female_tries
      r.away_conduct r.away_unstripped r.away_defaulted)

/-- The game-result store: at most one `GameResult` per fixture id
(`game_results.game_id` is UNIQUE). -/
def ResultStore : Type := Nat → Option GameResult

/-- `upsert_game_result` from app.py: `INSERT ... ON CONFLICT(game_id) DO
UPDATE` — the row for `game_id` is replaced, everything else untouched.
The function itself performs no validation. -/
def upsert_game_result (store : ResultStore) (game_id : Nat) (r : GameResult) :
    ResultStore :=
  fun k => if k = game_id then some r else store k

/-- The ladder tab's Save-result click handler in app.py: if both DEFAULTED
checkboxes are set it shows an error and does not write; otherwise it calls
`upsert_game_result`.  Returns (error message if rejected, resulting
store). -/
def ladder_save_result (store : ResultStore) (game_id : Nat) (r : GameResult) :
    Option String × ResultStore :=
  if r.home_defaulted && r.away_defaulted then
    (some "Cannot save: only one team can be marked as DEFAULTED.", store)
  else
    (none, upsert_game_result store game_id r)

/-- Python's `str.strip()` as used by the source on team and division
names: drop leading and trailing whitespace.  (`String.trim` is
extensionally the same but is defined by well-founded recursion and does
not reduce in the kernel, so the embedding uses this structural
equivalent.) -/
def pyStrip (s : String) : String :=
  ⟨(((s.data.dropWhile Char.isWhitespace).reverse).dropWhile
    Char.isWhitespace).reverse⟩

/-- A row of the `teams` table: `name` (UNIQUE), `division`,
`opening_balance`. -/
structure TeamRec where
  name : String
  division : String
  opening_balance : Int
deriving DecidableEq, Repr

/-- A row of the `games` table (a fixture): id, start date (day
granularity), home and away team names. -/
structure Game where
  id : Nat
  start_dt : Int
  home_team : String
  away_team : String
deriving DecidableEq, Repr

/-- The SQL `COALESCE(t.division,'—')` of the audit query's LEFT JOIN on
team name. -/
def team_division_or_dash (teams : List TeamRec) (n : String) : String :=
  match teams.find? (fun t => t.name == n) with
  | some t => t.division
  | none => "—"

/-- The SQL `COALESCE(t.opening_balance,0)` of the audit query's LEFT JOIN
on team name. -/
def team_opening (teams : List TeamRec) (n : String) : Int :=
  match teams.find? (fun t => t.name == n) with
  | some t => t.opening_balance
  | none => 0

/-- One output row of `ladder_audit_df_as_at` in app.py (the dict appended
to `out`): Date, Division, Team, Opponent, PF, PA, PD, Res, Match, CloseBP,
FemBP, Conduct, Pen, Points, Opening, Defaulted. -/
structure AuditRow where
  date : Int
  division : String
  team : String
  opponent : String
  pf : Int
  pa : Int
  pd : Int
  res : MatchRes
  match_pts : Int
  close_bp : Int
  fem_bp : Int
  conduct : Int
  pen : Int
  points : Int
  opening : Int
  defaulted : Bool
deriving DecidableEq, Repr

/-- The loop body of `ladder_audit_df_as_at`: one team-perspective row of
the SQL `teamsplit` result, passed to `compute_points_breakdown_for_game`
with the opponent-slot inputs zeroed (they are unused in a single-team row)
and `away_defaulted=0`, taking the HOME side of the result. -/
def audit_row (teams : List TeamRec) (date : Int) (team opponent : String)
    (pf pa female_tries conduct unstripped : Int) (defaulted : Bool) : AuditRow :=
  let bd := (compute_points_breakdown_for_game
    { home_score := pf
      away_score := pa
      home_female_tries := female_tries
      away_female_tries := 0
      home_conduct := conduct
      away_conduct := 0
      home_unstripped := unstripped
      away_unstripped := 0
      home_defaulted := defaulted
      away_defaulted := false }).1
  { date := date
    division := team_division_or_dash teams team
    team := team
    opponent := opponent
    pf := pf
    pa := pa
    pd := pf - pa
    res := bd.res
    match_pts := bd.match_pts
    close_bp := bd.close_bp
    fem_bp := bd.fem_bp
    conduct := bd.conduct
    pen := bd.pen
    points := bd.points
    opening := team_opening teams team
    defaulted := bd.defaulted }

/-- The home-team-perspective audit row of a fixture with a saved result:
the first `teamsplit` branch of `ladder_audit_df_as_at` (own fields =
home fields, pf/pa = home/away score). -/
def home_audit_row (teams : List TeamRec) (g : Game) (gr : GameResult) : AuditRow :=
  audit_row teams g.start_dt g.home_team g.away_team gr.home_score gr.away_score
    gr.home_female_tries gr.home_conduct gr.home_unstripped gr.home_defaulted

/-- The away-team-perspective audit row of a fixture with a saved result:
the second `teamsplit` branch of `ladder_audit_df_as_at` (own fields =
away fields, pf/pa swapped). -/
def away_audit_row (teams : List TeamRec) (g : Game) (gr : GameResult) : AuditRow :=
  audit_row teams g.start_dt g.away_team g.home_team gr.away_score gr.home_score
    gr.away_female_tries gr.away_conduct gr.away_unstripped gr.away_defaulted

/-- `ladder_audit_df_as_at` from app.py: one row per team per game in the
window from season start to the as-at date (inclusive); a fixture whose
`game_results` lookup is empty (`has_result IS NULL`) is skipped entirely
(`continue` in the source) and contributes nothing. -/
def ladder_audit_rows (teams : List TeamRec) (results : ResultStore)
    (games : List Game) (season_start as_at : Int) : List AuditRow :=
  (games.filter
      (fun g => decide (season_start ≤ g.start_dt ∧ g.start_dt < as_at + 1))).flatMap
    (fun g =>
      match results g.id with
      | none => []
      | some gr => [home_audit_row teams g gr, away_audit_row teams g gr])

/-- One row of the ladder table built by `ladder_table_df_as_at` in app.py:
Team, Opening, P, W, D, L, PF, PA, PD, Points, Total. -/
structure StandRow where
  team : String
  opening : Int
  p : Nat
  w : Nat
  d : Nat
  l : Nat
  pf : Int
  pa : Int
  pd : Int
  points : Int
  total : Int
deriving DecidableEq, Repr

/-- An all-zero ladder row (the zero-result branches of
`ladder_table_df_as_at`: Total = Opening). -/
def zero_stand_row (name : String) (opening : Int) : StandRow :=
  { team := name
    opening := opening
    p := 0
    w := 0
    d := 0
    l := 0
    pf := 0
    pa := 0
    pd := 0
    points := 0
    total := opening }

/-- The `groupby("Team")` aggregation of `ladder_table_df_as_at`, merged
with the base team list via a left join and `fillna(0)`: a base team with
no audit rows gets all-zero sums.  `P` counts rows with Res in
\{"W","D","L"\}; each of W/D/L counts its own marker; a "DEFAULT" row is
counted in none of them. -/
def agg_stand_row (rows : List AuditRow) (name : String) (opening : Int) : StandRow :=
  let mine := rows.filter (fun r => r.team == name)
  if mine.isEmpty then zero_stand_row name opening
  else
    let pf := (mine.map (fun r => r.pf)).sum
    let pa := (mine.map (fun r => r.pa)).sum
    let pts := (mine.map (fun r => r.points)).sum
    { team := name
      opening := opening
      p := mine.countP (fun r => r.res == MatchRes.W || r.res == MatchRes.D ||
        r.res == MatchRes.L)
      w := mine.countP (fun r => r.res == MatchRes.W)
      d := mine.countP (fun r => r.res == MatchRes.D)
      l := mine.countP (fun r => r.res == MatchRes.L)
      pf := pf
      pa := pa
      pd := pf - pa
      points := pts
      total := opening + pts }

/-- The ordering of the final
`sort_values(by=["Total","PD","PF","Team"], ascending=[False,False,False,True])`
of `ladder_table_df_as_at`: total descending, then points difference
descending, then points-for descending, then team name ascending. -/
def stand_le (a b : StandRow) : Prop :=
  b.total < a.total ∨ (a.total = b.total ∧
    (b.pd < a.pd ∨ (a.pd = b.pd ∧
      (b.pf < a.pf ∨ (a.pf = b.pf ∧ a.team ≤ b.team)))))

instance (a b : StandRow) : Decidable (stand_le a b) := by
  unfold stand_le; infer_instance

/-- The ordering of the zero-result branches'
`sort_values(by=["Total","Team"], ascending=[False,True])`. -/
def stand_le_two (a b : StandRow) : Prop :=
  b.total < a.total ∨ (a.total = b.total ∧ a.team ≤ b.team)

instance (a b : StandRow) : Decidable (stand_le_two a b) := by
  unfold stand_le_two; infer_instance

/-- `ladder_table_df_as_at` from app.py: base = teams of the division (so
teams without results still appear), audit rows filtered to the division,
grouped per team, left-merged onto the base with zero fill, then sorted. -/
def ladder_table (teams : List TeamRec) (results : ResultStore)
    (games : List Game) (season_start as_at : Int) (division : String) :
    List StandRow :=
  let base := teams.filter (fun t => pyStrip t.division == division)
  if base.isEmpty then []
  else
    let df := ladder_audit_rows teams results games season_start as_at
    if df.isEmpty then
      (base.map (fun t => zero_stand_row t.name t.opening_balance)).mergeSort
        (fun a b => decide (stand_le_two a b))
    else
      let dfd := df.filter (fun r => r.division == division)
      if dfd.isEmpty then
        (base.map (fun t => zero_stand_row t.name t.opening_balance)).mergeSort
          (fun a b => decide (stand_le_two a b))
      else
        (base.map (fun t => agg_stand_row dfd t.name t.opening_balance)).mergeSort
          (fun a b => decide (stand_le a b))

/-- `get_team_division` from app.py: the stripped division of the named
team, or "" when the team is unknown. -/
def get_team_division (teams : List TeamRec) (name : String) : String :=
  match teams.find? (fun t => t.name == pyStrip name) with
  | some t => pyStrip t.division
  | none => ""

/-- `game_local_date` from app.py, at the day granularity of this model. -/
def game_local_date (g : Game) : Int :=
  g.start_dt

/-- `ladder_validation_warnings_as_at` from app.py: per game of the window,
a missing-division warning per unknown-division team, then either a
missing-result warning or (when both default flags are set) an
invalid-flags warning.  No other warning is produced. -/
def ladder_validation_warnings_as_at (teams : List TeamRec)
    (results : ResultStore) (games : List Game) (season_start as_at : Int) :
    List String :=
  if games.isEmpty then ["No games found (cannot determine season start)."]
  else
    (games.filter
        (fun g => decide (season_start ≤ game_local_date g ∧
          game_local_date g ≤ as_at))).flatMap
      (fun g =>
        (([g.home_team, g.away_team].filter
            (fun t => !(t == "") && (get_team_division teams t == ""))).map
          (fun t => "Missing division for team: " ++ t)) ++
        (match results g.id with
         | none =>
             ["Missing result: " ++
               (g.home_team ++ " vs " ++ g.away_team ++ " (" ++
                 toString (game_local_date g) ++ ")")]
         | some r =>
             if r.home_defaulted && r.away_defaulted then
               ["Invalid DEFAULTED flags (both marked): " ++
                 (g.home_team ++ " vs " ++ g.away_team ++ " (" ++
                   toString (game_local_date g) ++ ")")]
             else []))


/-- The audit rows of one division and one team: after the standings
builder's division filter and the per-team grouping, these are exactly the
rows aggregated for that team. -/
def division_team_rows (teams : List TeamRec) (results : ResultStore)
    (games : List Game) (season_start as_at : Int) (division name : String) :
    List AuditRow :=
  (ladder_audit_rows teams results games season_start as_at).filter
    (fun r => r.team == name && r.division == division)

/-! ### Concrete instances used for witnesses and counterexamples -/

/-- A small Division 1 registry: teams A, B (opening 0) and C (opening 5). -/
def exTeams : List TeamRec :=
  [{ name := "A", division := "Division 1", opening_balance := 0 },
   { name := "B", division := "Division 1", opening_balance := 0 },
   { name := "C", division := "Division 1", opening_balance := 5 }]

/-- A single fixture A vs B on day 5. -/
def exGame1 : Game :=
  { id := 1, start_dt := 5, home_team := "A", away_team := "B" }

def exGames : List Game := [exGame1]

/-- A stored result where the home side defaulted, the away side did not,
both conduct inputs are 3, and the recorded score is 0 - 0. -/
def exDefaultRes : GameResult :=
  { home_score := 0
    away_score := 0
    home_female_tries := 0
    away_female_tries := 0
    home_conduct := 3
    away_conduct := 3
    home_unstripped := 0
    away_unstripped := 0
    home_defaulted := true
    away_defaulted := false }

/-- Result store holding `exDefaultRes` for fixture 1 only. -/
def exResults : ResultStore := fun k => if k = 1 then some exDefaultRes else none

/-- A result with no defaults, an out-of-range conduct value (11) and a
negative numeric field (away unstripped count -5). -/
def exBadRes : GameResult :=
  { home_score := 10
    away_score := 7
    home_female_tries := 0
    away_female_tries := 0
    home_conduct := 11
    away_conduct := 8
    home_unstripped := 0
    away_unstripped := -5
    home_defaulted := false
    away_defaulted := false }

/-- Result store holding `exBadRes` for fixture 1 only. -/
def exBadResults : ResultStore := fun k => if k = 1 then some exBadRes else none

/-- An ordinary stored result with no defaults. -/
def exNormRes : GameResult :=
  { home_score := 20
    away_score := 10
    home_female_tries := 4
    away_female_tries := 0
    home_conduct := 10
    away_conduct := 8
    home_unstripped := 0
    away_unstripped := 0
    home_defaulted := false
    away_defaulted := false }

/-- `exNormRes` with every opponent-side (away) raw input changed. -/
def exNormResAltOpp : GameResult :=
  { exNormRes with
    away_female_tries := 9
    away_conduct := 2
    away_unstripped := 7
    away_defaulted := true }

/-- A result with both default flags set. -/
def exBothRes : GameResult :=
  { exDefaultRes with away_defaulted := true }

/-- A store with a prior result for fixture 1. -/
def exStore0 : ResultStore := fun k => if k = 1 then some exNormRes else none


/-- The ladder row the concrete instance produces for team B (a draw on
recorded scores 0-0 with conduct 3: 2 + 3 points). -/
def exRowB : StandRow :=
  { team := "B"
    opening := 0
    p := 1
    w := 0
    d := 1
    l := 0
    pf := 0
    pa := 0
    pd := 0
    points := 5
    total := 5 }

/-! ### Helper lemmas about the standings ordering -/

/-- Transitivity step for one descending-key level of a lexicographic sort
comparator. -/
theorem desc_lex_trans {x y z : Int} {P Q R : Prop}
    (h1 : y < x ∨ (x = y ∧ P)) (h2 : z < y ∨ (y = z ∧ Q))
    (hPQ : P → Q → R) : z < x ∨ (x = z ∧ R) := by
  rcases h1 with h1 | ⟨e1, p⟩ <;> rcases h2 with h2 | ⟨e2, q⟩
  · exact Or.inl (by omega)
  · exact Or.inl (by omega)
  · exact Or.inl (by omega)
  · exact Or.inr ⟨by omega, hPQ p q⟩

/-- Totality step for one descending-key level of a lexicographic sort
comparator. -/
theorem desc_lex_total {x y : Int} {P Q : Prop} (hPQ : P ∨ Q) :
    (y < x ∨ (x = y ∧ P)) ∨ (x < y ∨ (y = x ∧ Q)) := by
  rcases lt_trichotomy x y with h | h | h
  · exact Or.inr (Or.inl h)
  · rcases hPQ with p | q
    · exact Or.inl (Or.inr ⟨h, p⟩)
    · exact Or.inr (Or.inr ⟨h.symm, q⟩)
  · exact Or.inl (Or.inl h)

/-- Antisymmetry step: both directions of one descending-key level force the
keys equal and pass both residues down. -/
theorem desc_lex_both {x y : Int} {P Q : Prop}
    (h1 : y < x ∨ (x = y ∧ P)) (h2 : x < y ∨ (y = x ∧ Q)) : P ∧ Q := by
  rcases h1 with h1 | ⟨e1, p⟩ <;> rcases h2 with h2 | ⟨e2, q⟩
  · exact ((by omega : False)).elim
  · exact ((by omega : False)).elim
  · exact ((by omega : False)).elim
  · exact ⟨p, q⟩

theorem stand_le_trans {a b c : StandRow} (hab : stand_le a b) (hbc : stand_le b c) :
    stand_le a c := by
  unfold stand_le at *
  exact desc_lex_trans hab hbc (fun p q =>
    desc_lex_trans p q (fun p q =>
      desc_lex_trans p q (fun p q => le_trans p q)))

theorem stand_le_total (a b : StandRow) : stand_le a b ∨ stand_le b a := by
  unfold stand_le
  exact desc_lex_total (desc_lex_total (desc_lex_total (le_total a.team b.team)))

theorem stand_le_name_eq {a b : StandRow} (h1 : stand_le a b) (h2 : stand_le b a) :
    a.team = b.team := by
  unfold stand_le at h1 h2
  have s1 := desc_lex_both h1 h2
  have s2 := desc_lex_both s1.1 s1.2
  have s3 := desc_lex_both s2.1 s2.2
  exact le_antisymm s3.1 s3.2

theorem stand_le_two_trans {a b c : StandRow} (hab : stand_le_two a b)
    (hbc : stand_le_two b c) : stand_le_two a c := by
  unfold stand_le_two at *
  exact desc_lex_trans hab hbc (fun p q => le_trans p q)

theorem stand_le_two_total (a b : StandRow) : stand_le_two a b ∨ stand_le_two b a := by
  unfold stand_le_two
  exact desc_lex_total (le_total a.team b.team)

/-- On rows whose PD and PF are both zero (the zero-result branches), the
two-key comparator implies the full four-key comparator. -/
theorem stand_le_of_two {a b : StandRow} (ha : a.pd = 0 ∧ a.pf = 0)
    (hb : b.pd = 0 ∧ b.pf = 0) (h : stand_le_two a b) : stand_le a b := by
  unfold stand_le_two at h
  unfold stand_le
  rcases h with h | ⟨e, h⟩
  · exact Or.inl h
  · exact Or.inr ⟨e, Or.inr ⟨by omega, Or.inr ⟨by omega, h⟩⟩⟩

/-- A mergeSort by the full comparator is sorted for `stand_le`. -/
theorem sorted_mergeSort_stand_le (l : List StandRow) :
    (l.mergeSort (fun a b => decide (stand_le a b))).Sorted stand_le := by
  have h := @List.sorted_mergeSort StandRow (fun a b => decide (stand_le a b))
    (fun a b c hab hbc => by
      rw [decide_eq_true_eq] at *
      exact stand_le_trans hab hbc)
    (fun a b => by
      rw [Bool.or_eq_true, decide_eq_true_eq, decide_eq_true_eq]
      exact stand_le_total a b) l
  exact h.imp (fun hab => of_decide_eq_true hab)

/-- A mergeSort of all-zero rows by the two-key comparator is sorted for
`stand_le`. -/
theorem sorted_mergeSort_zero_rows (base : List TeamRec) :
    ((base.map (fun t => zero_stand_row t.name t.opening_balance)).mergeSort
      (fun a b => decide (stand_le_two a b))).Sorted stand_le := by
  have h := @List.sorted_mergeSort StandRow (fun a b => decide (stand_le_two a b))
    (fun a b c hab hbc => by
      rw [decide_eq_true_eq] at *
      exact stand_le_two_trans hab hbc)
    (fun a b => by
      rw [Bool.or_eq_true, decide_eq_true_eq, decide_eq_true_eq]
      exact stand_le_two_total a b)
    (base.map (fun t => zero_stand_row t.name t.opening_balance))
  refine h.imp_of_mem ?_
  intro a b ha hb hab
  have ha' := List.mem_mergeSort.mp ha
  have hb' := List.mem_mergeSort.mp hb
  obtain ⟨ta, _, rfl⟩ := List.mem_map.mp ha'
  obtain ⟨tb, _, rfl⟩ := List.mem_map.mp hb'
  exact stand_le_of_two ⟨rfl, rfl⟩ ⟨rfl, rfl⟩ (of_decide_eq_true hab)

/-! ### Branch characterizations of the standings builder -/

/-- An empty division yields an empty ladder. -/
theorem ladder_table_empty_base (teams : List TeamRec) (results : ResultStore)
    (games : List Game) (season_start as_at : Int) (division : String)
    (h : (teams.filter (fun t => pyStrip t.division == division)).isEmpty = true) :
    ladder_table teams results games season_start as_at division = [] := by
  unfold ladder_table
  simp [h]

/-- With no audit rows at all, the ladder is the zero rows sorted by the
two-key comparator. -/
theorem ladder_table_no_audit (teams : List TeamRec) (results : ResultStore)
    (games : List Game) (season_start as_at : Int) (division : String)
    (h0 : (teams.filter (fun t => pyStrip t.division == division)).isEmpty = false)
    (h1 : (ladder_audit_rows teams results games season_start as_at).isEmpty = true) :
    ladder_table teams results games season_start as_at division =
      ((teams.filter (fun t => pyStrip t.division == division)).map
        (fun t => zero_stand_row t.name t.opening_balance)).mergeSort
        (fun a b => decide (stand_le_two a b)) := by
  unfold ladder_table
  simp [h0, h1]

/-- With audit rows but none in the target division, the ladder is the zero
rows sorted by the two-key comparator. -/
theorem ladder_table_no_division_rows (teams : List TeamRec) (results : ResultStore)
    (games : List Game) (season_start as_at : Int) (division : String)
    (h0 : (teams.filter (fun t => pyStrip t.division == division)).isEmpty = false)
    (h1 : (ladder_audit_rows teams results games season_start as_at).isEmpty = false)
    (h2 : ((ladder_audit_rows teams results games season_start as_at).filter
      (fun r => r.division == division)).isEmpty = true) :
    ladder_table teams results games season_start as_at division =
      ((teams.filter (fun t => pyStrip t.division == division)).map
        (fun t => zero_stand_row t.name t.opening_balance)).mergeSort
        (fun a b => decide (stand_le_two a b)) := by
  unfold ladder_table
  simp [h0, h1, h2]

/-- In the main branch, the ladder is the per-team aggregation over the
division's audit rows, sorted by the full comparator. -/
theorem ladder_table_main (teams : List TeamRec) (results : ResultStore)
    (games : List Game) (season_start as_at : Int) (division : String)
    (h0 : (teams.filter (fun t => pyStrip t.division == division)).isEmpty = false)
    (h1 : (ladder_audit_rows teams results games season_start as_at).isEmpty = false)
    (h2 : ((ladder_audit_rows teams results games season_start as_at).filter
      (fun r => r.division == division)).isEmpty = false) :
    ladder_table teams results games season_start as_at division =
      ((teams.filter (fun t => pyStrip t.division == division)).map
        (fun t => agg_stand_row ((ladder_audit_rows teams results games season_start as_at).filter
          (fun r => r.division == division)) t.name t.opening_balance)).mergeSort
        (fun a b => decide (stand_le a b)) := by
  unfold ladder_table
  simp [h0, h1, h2]

/-! ### Aggregation row lemmas -/

/-- The team field of an aggregated row is the base team's name. -/
theorem agg_stand_row_team (rows : List AuditRow) (name : String) (ob : Int) :
    (agg_stand_row rows name ob).team = name := by
  unfold agg_stand_row zero_stand_row
  by_cases h : (rows.filter (fun r => r.team == name)).isEmpty = true <;> simp [h]

/-- A base team without matching audit rows aggregates to the all-zero
row. -/
theorem agg_stand_row_of_no_rows (rows : List AuditRow) (name : String) (ob : Int)
    (h : rows.filter (fun r => r.team == name) = []) :
    agg_stand_row rows name ob = zero_stand_row name ob := by
  unfold agg_stand_row
  simp [h]

/-- Count fields of an aggregated row: `P` counts W/D/L rows, each of
W/D/L counts its own marker; DEFAULT rows are in none of the counts. -/
theorem agg_stand_row_counts (rows : List AuditRow) (name : String) (ob : Int) :
    (agg_stand_row rows name ob).p = (rows.filter (fun r => r.team == name)).countP
        (fun r => r.res == MatchRes.W || r.res == MatchRes.D || r.res == MatchRes.L) ∧
    (agg_stand_row rows name ob).w = (rows.filter (fun r => r.team == name)).countP
        (fun r => r.res == MatchRes.W) ∧
    (agg_stand_row rows name ob).d = (rows.filter (fun r => r.team == name)).countP
        (fun r => r.res == MatchRes.D) ∧
    (agg_stand_row rows name ob).l = (rows.filter (fun r => r.team == name)).countP
        (fun r => r.res == MatchRes.L) := by
  unfold agg_stand_row
  by_cases h : (rows.filter (fun r => r.team == name)).isEmpty = true
  · rw [List.isEmpty_iff] at h
    simp [h, zero_stand_row]
  · simp only [h]
    simp [zero_stand_row]

/-! ### Skipping fixtures without results -/

/-- Filtering a list by a predicate whose failures contribute empty lists
leaves a flatMap unchanged, in the nested-filter shape used by the audit
aggregator. -/
theorem flatMap_filter_skip {α β : Type _} (S W : α → Bool) (f : α → List β)
    (l : List α) (h : ∀ a, S a = false → f a = []) :
    (l.filter W).flatMap f = ((l.filter S).filter W).flatMap f := by
  induction l with
  | nil => rfl
  | cons a l ih =>
    rw [List.filter_cons, List.filter_cons]
    by_cases hs : S a = true
    · rw [if_pos hs, List.filter_cons]
      by_cases hw : W a = true
      · rw [if_pos hw, if_pos hw, List.flatMap_cons, List.flatMap_cons, ih]
      · rw [if_neg hw, if_neg hw, ih]
    · rw [if_neg hs]
      by_cases hw : W a = true
      · rw [if_pos hw, List.flatMap_cons, h a (Bool.eq_false_iff.mpr hs),
          List.nil_append, ih]
      · rw [if_neg hw, ih]

/-- The audit aggregation is unchanged when fixtures without a stored
result are removed from the fixture list: such fixtures contribute no
row. -/
theorem ladder_audit_skip_no_result (teams : List TeamRec) (results : ResultStore)
    (games : List Game) (season_start as_at : Int) :
    ladder_audit_rows teams results games season_start as_at =
      ladder_audit_rows teams results
        (games.filter (fun g => (results g.id).isSome)) season_start as_at := by
  unfold ladder_audit_rows
  refine flatMap_filter_skip (fun g => (results g.id).isSome) _ _ games ?_
  intro g hg
  have hg2 : (results g.id).isSome = false := hg
  rcases hr : results g.id with _ | v
  · simp only [hr]
  · rw [hr] at hg2
    simp at hg2

/-! ### C1 -/

/-- C1 counterexample: a defaulted side whose raw conduct input is 3 gets
conductPoints 3 and total 3, not the claimed forced 10/10. -/
theorem defaulted_conduct_not_forced_counterexample :
    exDefaultRes.home_defaulted = true ∧ exDefaultRes.home_conduct = 3 ∧
    (compute_points_breakdown_for_game exDefaultRes).1.res = MatchRes.DEFAULT ∧
    (compute_points_breakdown_for_game exDefaultRes).1.conduct = 3 ∧
    (compute_points_breakdown_for_game exDefaultRes).1.points = 3 ∧
    ¬((compute_points_breakdown_for_game exDefaultRes).1.conduct = 10) ∧
    ¬((compute_points_breakdown_for_game exDefaultRes).1.points = 10) := by
  decide

/-- C1 (amended): for a defaulted side the breakdown has result DEFAULTED,
matchPoints 0, closeLossBonus 0, femaleTryBonus 0, unstrippedPenalty 0, and
conductPoints equal to the raw input conduct value (not forced to 10), so
the total equals that raw conduct value (10 exactly when the recorded
conduct is 10). -/
theorem defaulted_side_breakdown_fields (r : GameResult) :
    (r.home_defaulted = true →
      (compute_points_breakdown_for_game r).1.res = MatchRes.DEFAULT ∧
      (compute_points_breakdown_for_game r).1.match_pts = 0 ∧
      (compute_points_breakdown_for_game r).1.close_bp = 0 ∧
      (compute_points_breakdown_for_game r).1.fem_bp = 0 ∧
      (compute_points_breakdown_for_game r).1.pen = 0 ∧
      (compute_points_breakdown_for_game r).1.conduct = r.home_conduct ∧
      (compute_points_breakdown_for_game r).1.points = r.home_conduct) ∧
    (r.away_defaulted = true →
      (compute_points_breakdown_for_game r).2.res = MatchRes.DEFAULT ∧
      (compute_points_breakdown_for_game r).2.match_pts = 0 ∧
      (compute_points_breakdown_for_game r).2.close_bp = 0 ∧
      (compute_points_breakdown_for_game r).2.fem_bp = 0 ∧
      (compute_points_breakdown_for_game r).2.pen = 0 ∧
      (compute_points_breakdown_for_game r).2.conduct = r.away_conduct ∧
      (compute_points_breakdown_for_game r).2.points = r.away_conduct) := by
  constructor <;> intro h <;>
    simp [compute_points_breakdown_for_game, side_breakdown, h]

/-- Witness for C1's amended theorem at `exDefaultRes`. -/
theorem defaulted_side_breakdown_fields_witness :
    (compute_points_breakdown_for_game exDefaultRes).1.res = MatchRes.DEFAULT ∧
    (compute_points_breakdown_for_game exDefaultRes).1.points =
      exDefaultRes.home_conduct :=
  ⟨((defaulted_side_breakdown_fields exDefaultRes).1 rfl).1,
   ((defaulted_side_breakdown_fields exDefaultRes).1 rfl).2.2.2.2.2.2⟩

/-! ### C9 -/

/-- C9: the close-loss bonus is 1 iff the side lost and the margin is
exactly 1 or 2; otherwise (wins, draws, larger losses) it is 0, and a
defaulted side always gets 0. -/
theorem close_loss_bonus_rule (pf pa female_tries conduct unstripped : Int) :
    ((side_breakdown pf pa female_tries conduct unstripped false).close_bp = 1 ↔
      pf < pa ∧ (pa - pf = 1 ∨ pa - pf = 2)) ∧
    ((side_breakdown pf pa female_tries conduct unstripped false).close_bp =
      if pf < pa ∧ (pa - pf = 1 ∨ pa - pf = 2) then 1 else 0) ∧
    (side_breakdown pf pa female_tries conduct unstripped true).close_bp = 0 := by
  refine ⟨?_, ?_, ?_⟩
  · by_cases h : pf < pa ∧ (pa - pf = 1 ∨ pa - pf = 2)
    · simp [side_breakdown, h]
    · simp [side_breakdown, h]
  · by_cases h : pf < pa ∧ (pa - pf = 1 ∨ pa - pf = 2)
    · simp [side_breakdown, h]
    · simp [side_breakdown, h]
  · simp [side_breakdown]

/-! ### C3 -/

/-- C3: the ladder Save-result operation rejects a result with both default
flags set, leaving the store untouched, and otherwise upserts: the new
result replaces any prior result for that fixture and no other fixture is
affected. -/
theorem save_result_rejects_both_defaults (store : ResultStore) (game_id : Nat)
    (r : GameResult) :
    ((r.home_defaulted && r.away_defaulted) = true →
      (ladder_save_result store game_id r).1 =
        some "Cannot save: only one team can be marked as DEFAULTED." ∧
      (ladder_save_result store game_id r).2 = store) ∧
    ((r.home_defaulted && r.away_defaulted) = false →
      (ladder_save_result store game_id r).1 = none ∧
      (ladder_save_result store game_id r).2 = upsert_game_result store game_id r ∧
      (ladder_save_result store game_id r).2 game_id = some r ∧
      ∀ k, k ≠ game_id → (ladder_save_result store game_id r).2 k = store k) := by
  constructor
  · intro h
    unfold ladder_save_result
    rw [if_pos h]
    exact ⟨rfl, rfl⟩
  · intro h
    unfold ladder_save_result
    rw [if_neg (by simp [h])]
    refine ⟨rfl, rfl, ?_, ?_⟩
    · unfold upsert_game_result
      simp
    · intro k hk
      unfold upsert_game_result
      simp [hk]

/-- Witness for C3's theorem: a both-defaulted write is rejected and the
prior stored result survives; a valid write lands in the store. -/
theorem save_result_rejects_both_defaults_witness :
    (ladder_save_result exStore0 1 exBothRes).1 =
      some "Cannot save: only one team can be marked as DEFAULTED." ∧
    (ladder_save_result exStore0 1 exBothRes).2 = exStore0 ∧
    (ladder_save_result exStore0 1 exDefaultRes).2 1 = some exDefaultRes :=
  ⟨((save_result_rejects_both_defaults exStore0 1 exBothRes).1 (by decide)).1,
   ((save_result_rejects_both_defaults exStore0 1 exBothRes).1 (by decide)).2,
   ((save_result_rejects_both_defaults exStore0 1 exDefaultRes).2 (by decide)).2.2.1⟩

/-! ### C10 -/

/-- C10: a team's audit row depends only on the two scores and that team's
own female tries, conduct, unstripped count and default flag; the
opponent's female tries, conduct, unstripped count and default flag are
irrelevant. -/
theorem audit_row_depends_only_on_own_inputs (teams : List TeamRec) (g : Game)
    (r r2 : GameResult)
    (hhs : r.home_score = r2.home_score) (has2 : r.away_score = r2.away_score) :
    (r.home_female_tries = r2.home_female_tries → r.home_conduct = r2.home_conduct →
      r.home_unstripped = r2.home_unstripped → r.home_defaulted = r2.home_defaulted →
      home_audit_row teams g r = home_audit_row teams g r2) ∧
    (r.away_female_tries = r2.away_female_tries → r.away_conduct = r2.away_conduct →
      r.away_unstripped = r2.away_unstripped → r.away_defaulted = r2.away_defaulted →
      away_audit_row teams g r = away_audit_row teams g r2) := by
  constructor <;> intro h1 h2 h3 h4 <;>
    simp only [home_audit_row, away_audit_row] <;>
    rw [hhs, has2, h1, h2, h3, h4]

/-- Witness for C10's theorem: changing every away-side raw input leaves
the home team's audit row unchanged. -/
theorem audit_row_depends_only_on_own_inputs_witness :
    home_audit_row exTeams exGame1 exNormRes =
      home_audit_row exTeams exGame1 exNormResAltOpp :=
  (audit_row_depends_only_on_own_inputs exTeams exGame1 exNormRes exNormResAltOpp
    rfl rfl).1 rfl rfl rfl rfl

/-! ### C2 -/

/-- C2 counterexample: home defaulted, away not; the away side's unique
audit row is a DRAW worth 2 match points with conduct 3 and total 5 — not
the claimed forced WIN with matchPoints 3, conduct 10 and total 13. -/
theorem opponent_not_forced_to_win_counterexample :
    exDefaultRes.home_defaulted = true ∧ exDefaultRes.away_defaulted = false ∧
    (ladder_audit_rows exTeams exResults exGames 0 9).countP
      (fun r => r.team == "B") = 1 ∧
    (ladder_audit_rows exTeams exResults exGames 0 9).countP
      (fun r => r.team == "B" && r.res == MatchRes.D && r.match_pts == 2 &&
        r.conduct == 3 && r.points == 5) = 1 := by
  decide

/-- C2 (amended): for a game with exactly one side defaulted, the
non-defaulting opponent's audit row is computed by the normal scoring rules
from the recorded scores and its own raw inputs; the opponent's default
flag has no effect on the row (nothing forces WIN / 13). -/
theorem opponent_of_defaulting_side_normal_rules (teams : List TeamRec) (g : Game)
    (r : GameResult) :
    (r.home_defaulted = true → r.away_defaulted = false →
      away_audit_row teams g r =
        audit_row teams g.start_dt g.away_team g.home_team r.away_score r.home_score
          r.away_female_tries r.away_conduct r.away_unstripped false) ∧
    (r.away_defaulted = true → r.home_defaulted = false →
      home_audit_row teams g r =
        audit_row teams g.start_dt g.home_team g.away_team r.home_score r.away_score
          r.home_female_tries r.home_conduct r.home_unstripped false) := by
  constructor <;> intro h1 h2 <;>
    simp only [home_audit_row, away_audit_row] <;>
    rw [h2]

/-- Witness for C2's amended theorem at `exDefaultRes`. -/
theorem opponent_of_defaulting_side_normal_rules_witness :
    away_audit_row exTeams exGame1 exDefaultRes =
      audit_row exTeams exGame1.start_dt exGame1.away_team exGame1.home_team
        exDefaultRes.away_score exDefaultRes.home_score
        exDefaultRes.away_female_tries exDefaultRes.away_conduct
        exDefaultRes.away_unstripped false :=
  (opponent_of_defaulting_side_normal_rules exTeams exGame1 exDefaultRes).1 rfl rfl

/-! ### C5 -/

/-- C5: fixtures without a stored result produce no audit row for either
team and leave the whole standings table unchanged; they are never treated
as a 0-0 draw. -/
theorem no_result_fixtures_contribute_nothing (teams : List TeamRec)
    (results : ResultStore) (games : List Game) (season_start as_at : Int)
    (division : String) :
    ladder_audit_rows teams results games season_start as_at =
      ladder_audit_rows teams results
        (games.filter (fun g => (results g.id).isSome)) season_start as_at ∧
    ladder_table teams results games season_start as_at division =
      ladder_table teams results (games.filter (fun g => (results g.id).isSome))
        season_start as_at division := by
  refine ⟨ladder_audit_skip_no_result teams results games season_start as_at, ?_⟩
  unfold ladder_table
  rw [← ladder_audit_skip_no_result teams results games season_start as_at]

/-! ### C4 -/

/-- C4: the standings output is sorted by the four-key comparator (total
descending, points difference descending, points for descending, team name
ascending), and any two rows with distinct team names compare strictly one
way, so the ordering is a strict total order on distinct-named rows. -/
theorem standings_sorted_and_strict (teams : List TeamRec) (results : ResultStore)
    (games : List Game) (season_start as_at : Int) (division : String) :
    (ladder_table teams results games season_start as_at division).Sorted stand_le ∧
    ∀ a b : StandRow, a.team ≠ b.team →
      (stand_le a b ∧ ¬ stand_le b a) ∨ (stand_le b a ∧ ¬ stand_le a b) := by
  constructor
  · by_cases h0 : (teams.filter (fun t => pyStrip t.division == division)).isEmpty = true
    · rw [ladder_table_empty_base teams results games season_start as_at division h0]
      exact List.sorted_nil
    · have h0f := Bool.eq_false_iff.mpr h0
      by_cases h1 : (ladder_audit_rows teams results games season_start as_at).isEmpty = true
      · rw [ladder_table_no_audit teams results games season_start as_at division h0f h1]
        exact sorted_mergeSort_zero_rows _
      · have h1f := Bool.eq_false_iff.mpr h1
        by_cases h2 : ((ladder_audit_rows teams results games season_start as_at).filter
            (fun r => r.division == division)).isEmpty = true
        · rw [ladder_table_no_division_rows teams results games season_start as_at
            division h0f h1f h2]
          exact sorted_mergeSort_zero_rows _
        · have h2f := Bool.eq_false_iff.mpr h2
          rw [ladder_table_main teams results games season_start as_at division
            h0f h1f h2f]
          exact sorted_mergeSort_stand_le _
  · intro a b hne
    rcases stand_le_total a b with h | h
    · exact Or.inl ⟨h, fun h2 => hne (stand_le_name_eq h h2)⟩
    · exact Or.inr ⟨h, fun h2 => hne (stand_le_name_eq h2 h)⟩

/-- Witness for C4's theorem: sortedness at a concrete input, and strict
comparability of two concrete rows with distinct names. -/
theorem standings_sorted_and_strict_witness :
    (ladder_table exTeams exResults exGames 0 9 "Division 1").Sorted stand_le ∧
    ((stand_le (zero_stand_row "A" 0) (zero_stand_row "B" 0) ∧
      ¬ stand_le (zero_stand_row "B" 0) (zero_stand_row "A" 0)) ∨
     (stand_le (zero_stand_row "B" 0) (zero_stand_row "A" 0) ∧
      ¬ stand_le (zero_stand_row "A" 0) (zero_stand_row "B" 0))) :=
  ⟨(standings_sorted_and_strict exTeams exResults exGames 0 9 "Division 1").1,
   (standings_sorted_and_strict exTeams exResults exGames 0 9 "Division 1").2
     (zero_stand_row "A" 0) (zero_stand_row "B" 0) (by decide)⟩

/-! ### C7 -/

/-- C7 counterexample: a stored result with conduct 11 on a non-defaulted
side and a negative numeric field yields an empty warning list — the
validator emits no conduct-range or negativity warning. -/
theorem validator_ignores_conduct_and_negative_counterexample :
    exBadRes.home_conduct = 11 ∧ exBadRes.home_defaulted = false ∧
    exBadRes.away_unstripped = -5 ∧
    ladder_validation_warnings_as_at exTeams exBadResults exGames 0 9 = [] := by
  decide

/-- C7 (amended): every warning the validator returns is a
missing-division, missing-result or both-defaulted warning (or the global
no-games message); it never warns about conduct values outside [0,10] or
negative numeric fields. -/
theorem validator_warning_kinds (teams : List TeamRec) (results : ResultStore)
    (games : List Game) (season_start as_at : Int) :
    ∀ w ∈ ladder_validation_warnings_as_at teams results games season_start as_at,
      (∃ s, w = "Missing division for team: " ++ s) ∨
      (∃ s, w = "Missing result: " ++ s) ∨
      (∃ s, w = "Invalid DEFAULTED flags (both marked): " ++ s) ∨
      w = "No games found (cannot determine season start)." := by
  intro w hw
  unfold ladder_validation_warnings_as_at at hw
  by_cases hg : games.isEmpty = true
  · rw [if_pos hg] at hw
    simp only [List.mem_singleton] at hw
    exact Or.inr (Or.inr (Or.inr hw))
  · rw [if_neg hg] at hw
    simp only [List.mem_flatMap, List.mem_append, List.mem_map] at hw
    obtain ⟨g, hgmem, hw⟩ := hw
    rcases hw with ⟨t, htm, rfl⟩ | hw
    · exact Or.inl ⟨t, rfl⟩
    · rcases hr : results g.id with _ | r
      · simp only [hr, List.mem_singleton] at hw
        exact Or.inr (Or.inl ⟨_, hw⟩)
      · simp only [hr] at hw
        by_cases hd : (r.home_defaulted && r.away_defaulted) = true
        · rw [if_pos hd] at hw
          simp only [List.mem_singleton] at hw
          exact Or.inr (Or.inr (Or.inl ⟨_, hw⟩))
        · rw [if_neg hd] at hw
          simp at hw

/-- Witness for C7's amended theorem: a concrete both-defaulted warning is
classified. -/
theorem validator_warning_kinds_witness :
    (∃ s, ("Invalid DEFAULTED flags (both marked): " ++
        ("A" ++ " vs " ++ "B" ++ " (" ++ toString (5 : Int) ++ ")") : String) =
        "Missing division for team: " ++ s) ∨
    (∃ s, ("Invalid DEFAULTED flags (both marked): " ++
        ("A" ++ " vs " ++ "B" ++ " (" ++ toString (5 : Int) ++ ")") : String) =
        "Missing result: " ++ s) ∨
    (∃ s, ("Invalid DEFAULTED flags (both marked): " ++
        ("A" ++ " vs " ++ "B" ++ " (" ++ toString (5 : Int) ++ ")") : String) =
        "Invalid DEFAULTED flags (both marked): " ++ s) ∨
    ("Invalid DEFAULTED flags (both marked): " ++
        ("A" ++ " vs " ++ "B" ++ " (" ++ toString (5 : Int) ++ ")") : String) =
        "No games found (cannot determine season start)." :=
  validator_warning_kinds exTeams (fun k => if k = 1 then some exBothRes else none)
    exGames 0 9 _ (by decide)

/-! ### C6 -/

/-- C6 counterexample: team A's single audit row has result DEFAULT, yet
its ladder row has played 0 and lost 0 — the DEFAULT row is neither counted
in `played` nor counted as a loss. -/
theorem default_rows_not_counted_counterexample :
    (ladder_audit_rows exTeams exResults exGames 0 9).countP
      (fun r => r.team == "A") = 1 ∧
    (ladder_audit_rows exTeams exResults exGames 0 9).countP
      (fun r => r.team == "A" && r.res == MatchRes.DEFAULT) = 1 ∧
    (ladder_table exTeams exResults exGames 0 9 "Division 1").countP
      (fun row => row.team == "A" && row.p == 0 && row.l == 0) = 1 := by
  refine ⟨by decide, by decide, ?_⟩
  rw [ladder_table_main exTeams exResults exGames 0 9 "Division 1"
    (by decide) (by decide) (by decide),
    List.Perm.countP_eq _ (List.mergeSort_perm _ _)]
  decide

/-- C6 (amended): in the standings grouping, a team's played count equals
the number of its division audit rows whose result is W, D or L — a
DEFAULT row is excluded from `played` and counted in none of the W/D/L
columns. -/
theorem standings_counts_per_result (teams : List TeamRec) (results : ResultStore)
    (games : List Game) (season_start as_at : Int) (division : String) :
    ∀ row ∈ ladder_table teams results games season_start as_at division,
      row.p = (division_team_rows teams results games season_start as_at division
          row.team).countP
          (fun r => r.res == MatchRes.W || r.res == MatchRes.D ||
            r.res == MatchRes.L) ∧
      row.w = (division_team_rows teams results games season_start as_at division
          row.team).countP (fun r => r.res == MatchRes.W) ∧
      row.d = (division_team_rows teams results games season_start as_at division
          row.team).countP (fun r => r.res == MatchRes.D) ∧
      row.l = (division_team_rows teams results games season_start as_at division
          row.team).countP (fun r => r.res == MatchRes.L) := by
  intro row hrow
  by_cases h0 : (teams.filter (fun t => pyStrip t.division == division)).isEmpty = true
  · rw [ladder_table_empty_base teams results games season_start as_at division h0] at hrow
    cases hrow
  · have h0f := Bool.eq_false_iff.mpr h0
    by_cases h1 : (ladder_audit_rows teams results games season_start as_at).isEmpty = true
    · rw [ladder_table_no_audit teams results games season_start as_at division
        h0f h1] at hrow
      obtain ⟨t, htb, rfl⟩ := List.mem_map.mp (List.mem_mergeSort.mp hrow)
      have hdf : ladder_audit_rows teams results games season_start as_at = [] :=
        List.isEmpty_iff.mp h1
      unfold division_team_rows
      rw [hdf]
      simp [zero_stand_row]
    · have h1f := Bool.eq_false_iff.mpr h1
      by_cases h2 : ((ladder_audit_rows teams results games season_start as_at).filter
          (fun r => r.division == division)).isEmpty = true
      · rw [ladder_table_no_division_rows teams results games season_start as_at
          division h0f h1f h2] at hrow
        obtain ⟨t, htb, rfl⟩ := List.mem_map.mp (List.mem_mergeSort.mp hrow)
        have hdfd := List.isEmpty_iff.mp h2
        have hnil : division_team_rows teams results games season_start as_at division
            (zero_stand_row t.name t.opening_balance).team = [] := by
          unfold division_team_rows
          rw [List.filter_eq_nil_iff]
          intro a ha
          have hdivneq := (List.filter_eq_nil_iff.mp hdfd) a ha
          simp only [Bool.and_eq_true, not_and] at hdivneq ⊢
          intro _
          exact hdivneq
        rw [hnil]
        simp [zero_stand_row]
      · have h2f := Bool.eq_false_iff.mpr h2
        rw [ladder_table_main teams results games season_start as_at division
          h0f h1f h2f] at hrow
        obtain ⟨t, htb, rfl⟩ := List.mem_map.mp (List.mem_mergeSort.mp hrow)
        have hff : division_team_rows teams results games season_start as_at division
            (agg_stand_row ((ladder_audit_rows teams results games season_start
              as_at).filter (fun r => r.division == division)) t.name
              t.opening_balance).team =
            ((ladder_audit_rows teams results games season_start as_at).filter
              (fun r => r.division == division)).filter
              (fun r => r.team == t.name) := by
          unfold division_team_rows
          rw [agg_stand_row_team]
          exact (List.filter_filter _ _).symm
        rw [hff]
        exact agg_stand_row_counts _ t.name t.opening_balance

/-- Witness for C6's amended theorem: team B's concrete ladder row. -/
theorem standings_counts_per_result_witness :
    exRowB ∈ ladder_table exTeams exResults exGames 0 9 "Division 1" ∧
    exRowB.p = (division_team_rows exTeams exResults exGames 0 9 "Division 1"
        exRowB.team).countP
        (fun r => r.res == MatchRes.W || r.res == MatchRes.D ||
          r.res == MatchRes.L) := by
  have hmem : exRowB ∈ ladder_table exTeams exResults exGames 0 9 "Division 1" := by
    rw [ladder_table_main exTeams exResults exGames 0 9 "Division 1"
      (by decide) (by decide) (by decide), List.mem_mergeSort]
    decide
  exact ⟨hmem, (standings_counts_per_result exTeams exResults exGames 0 9
    "Division 1" exRowB hmem).1⟩

/-! ### C8 -/

/-- C8: with unique team names, every team of the division appears exactly
once in the standings, and a team with no audit row in the window appears
with played 0 and total equal to its opening balance. -/
theorem standings_one_row_per_team (teams : List TeamRec) (results : ResultStore)
    (games : List Game) (season_start as_at : Int) (division : String) (t : TeamRec)
    (hnodup : (teams.map (fun x => x.name)).Nodup)
    (ht : t ∈ teams) (hdiv : pyStrip t.division = division) :
    (ladder_table teams results games season_start as_at division).countP
        (fun row => row.team == t.name) = 1 ∧
    ((∀ r ∈ ladder_audit_rows teams results games season_start as_at,
        r.team ≠ t.name) →
      ∀ row ∈ ladder_table teams results games season_start as_at division,
        row.team = t.name → row.p = 0 ∧ row.total = t.opening_balance) := by
  have hbase : t ∈ teams.filter (fun x => pyStrip x.division == division) :=
    List.mem_filter.mpr ⟨ht, by simp [hdiv]⟩
  have h0f : (teams.filter (fun x => pyStrip x.division == division)).isEmpty = false :=
    List.isEmpty_eq_false.mpr (List.ne_nil_of_mem hbase)
  have hnodupBase : ((teams.filter (fun x => pyStrip x.division == division)).map
      (fun x => x.name)).Nodup :=
    hnodup.sublist (List.Sublist.map _ (List.filter_sublist teams))
  have hcountBase : ((teams.filter (fun x => pyStrip x.division == division)).map
      (fun x => x.name)).count t.name = 1 :=
    List.count_eq_one_of_mem hnodupBase (List.mem_map.mpr ⟨t, hbase, rfl⟩)
  have hcount : ∀ (f : TeamRec → StandRow), (∀ x, (f x).team = x.name) →
      ∀ (le : StandRow → StandRow → Bool),
      (((teams.filter (fun x => pyStrip x.division == division)).map f).mergeSort
        le).countP (fun row => row.team == t.name) = 1 := by
    intro f hf le
    rw [List.Perm.countP_eq _ (List.mergeSort_perm _ _), List.countP_map]
    have hcomp : ((fun row : StandRow => row.team == t.name) ∘ f) =
        ((fun s => s == t.name) ∘ (fun x : TeamRec => x.name)) := by
      funext x
      simp [Function.comp, hf x]
    rw [hcomp, ← List.countP_map, ← List.count_eq_countP]
    exact hcountBase
  constructor
  · by_cases h1 : (ladder_audit_rows teams results games season_start as_at).isEmpty = true
    · rw [ladder_table_no_audit teams results games season_start as_at division h0f h1]
      exact hcount _ (fun x => rfl) _
    · have h1f := Bool.eq_false_iff.mpr h1
      by_cases h2 : ((ladder_audit_rows teams results games season_start as_at).filter
          (fun r => r.division == division)).isEmpty = true
      · rw [ladder_table_no_division_rows teams results games season_start as_at
          division h0f h1f h2]
        exact hcount _ (fun x => rfl) _
      · have h2f := Bool.eq_false_iff.mpr h2
        rw [ladder_table_main teams results games season_start as_at division
          h0f h1f h2f]
        exact hcount _ (fun x => agg_stand_row_team _ _ _) _
  · intro hno row hrow hteam
    by_cases h1 : (ladder_audit_rows teams results games season_start as_at).isEmpty = true
    · rw [ladder_table_no_audit teams results games season_start as_at division
        h0f h1] at hrow
      obtain ⟨u, hub, rfl⟩ := List.mem_map.mp (List.mem_mergeSort.mp hrow)
      have huname : u.name = t.name := hteam
      have hut : u = t :=
        List.inj_on_of_nodup_map hnodup (List.mem_filter.mp hub).1 ht huname
      exact ⟨rfl, show u.opening_balance = t.opening_balance by rw [hut]⟩
    · have h1f := Bool.eq_false_iff.mpr h1
      by_cases h2 : ((ladder_audit_rows teams results games season_start as_at).filter
          (fun r => r.division == division)).isEmpty = true
      · rw [ladder_table_no_division_rows teams results games season_start as_at
          division h0f h1f h2] at hrow
        obtain ⟨u, hub, rfl⟩ := List.mem_map.mp (List.mem_mergeSort.mp hrow)
        have huname : u.name = t.name := hteam
        have hut : u = t :=
          List.inj_on_of_nodup_map hnodup (List.mem_filter.mp hub).1 ht huname
        exact ⟨rfl, show u.opening_balance = t.opening_balance by rw [hut]⟩
      · have h2f := Bool.eq_false_iff.mpr h2
        rw [ladder_table_main teams results games season_start as_at division
          h0f h1f h2f] at hrow
        obtain ⟨u, hub, rfl⟩ := List.mem_map.mp (List.mem_mergeSort.mp hrow)
        have huname : u.name = t.name := by
          rw [agg_stand_row_team] at hteam
          exact hteam
        have hut : u = t :=
          List.inj_on_of_nodup_map hnodup (List.mem_filter.mp hub).1 ht huname
        have hmine : ((ladder_audit_rows teams results games season_start
            as_at).filter (fun r => r.division == division)).filter
            (fun r => r.team == u.name) = [] := by
          rw [List.filter_eq_nil_iff]
          intro a ha
          have hateam := hno a (List.mem_filter.mp ha).1
          simp only [beq_iff_eq]
          rw [huname]
          exact hateam
        rw [agg_stand_row_of_no_rows _ _ _ hmine]
        exact ⟨rfl, show u.opening_balance = t.opening_balance by rw [hut]⟩

/-- Witness for C8's theorem: team C (opening balance 5, no played games)
appears exactly once, with played 0 and total 5. -/
theorem standings_one_row_per_team_witness :
    (ladder_table exTeams exResults exGames 0 9 "Division 1").countP
        (fun row => row.team == "C") = 1 ∧
    ((∀ r ∈ ladder_audit_rows exTeams exResults exGames 0 9, r.team ≠ "C") →
      ∀ row ∈ ladder_table exTeams exResults exGames 0 9 "Division 1",
        row.team = "C" → row.p = 0 ∧ row.total = 5) :=
  standings_one_row_per_team exTeams exResults exGames 0 9 "Division 1"
    { name := "C", division := "Division 1", opening_balance := 5 }
    (by decide) (by decide) (by decide)
